import Mathlib

/-
Formal model of the DeepWhisperer outbound-notification dispatcher
(src/deepwhisperer/deepwhisperer.py), shallowly embedded in Lean 4.

Modelling conventions:
- Wall-clock time is a natural number of seconds (time.time / gmtime at
  second resolution).
- The TTLCache of recently-sent fingerprints is an association list of
  (fingerprint, insertion second); an entry is unexpired at time `now`
  while `now < inserted + ttl`, and capacity eviction drops the
  oldest-inserted entries (list tail) beyond `maxsize`.
- The SHA-256 hex digest is modelled as an injective fingerprint of the
  input string, represented by the identity embedding (collision freedom
  of the digest is idealised; only equality of digests matters here).
- Python's queue.Queue is a FIFO list with front at the head;
  put_nowait fails exactly when 0 < maxsize and maxsize <= length.
- Exceptions are modelled as explicit result values: the ValueError
  raised by tuple unpacking in the ledger retry is a Boolean flag, and
  the cycle-level `except Exception` handler that swallows it is
  reflected in how the cycle consumes that flag.
-/

namespace DeepWhisperer

/-- Modelled from the spec: the fixed title framing constants come from the
module `_constants`, which is not among the sources; the spec describes the
framing only as "a fixed title line", so the exact strings are fixed
placeholders. -/
def TITLE_START : String := "=="

/-- Modelled from the spec: closing delimiter of the fixed title line (from
the missing `_constants` module). -/
def TITLE_END : String := "=="

/-- Modelled from the spec: the fixed title text (from the missing
`_constants` module). -/
def TITLE : String := "DeepWhisperer"

/-- Modelled from the spec: opening delimiter of the timestamp line (from
the missing `_constants` module). -/
def TIMESTAMP_START : String := "--"

/-- Modelled from the spec: closing delimiter of the timestamp line (from
the missing `_constants` module). -/
def TIMESTAMP_END : String := "--"

/-- Two-digit zero padding used when rendering clock components. -/
def pad2 (n : Nat) : String :=
  if n < 10 then "0" ++ toString n else toString n

/-- Model of `time.strftime('%Y-%m-%d | %H:%M:%S', time.gmtime(t))`: the
calendar date `%Y-%m-%d` is rendered as the day index since the epoch
(calendar arithmetic abstracted away), and hours/minutes/seconds exactly as
`gmtime` computes them, so the rendering changes precisely when the integer
second changes. -/
def strftime_gm (t : Nat) : String :=
  toString (t / 86400) ++ " | " ++ pad2 (t % 86400 / 3600) ++ ":"
    ++ pad2 (t % 3600 / 60) ++ ":" ++ pad2 (t % 60)

/-- Source `_get_formatted_time`: the timestamp framing line. -/
def get_formatted_time (now : Nat) : String :=
  TIMESTAMP_START ++ " " ++ strftime_gm now ++ " | GMT " ++ TIMESTAMP_END

/-- Source `_get_formatted_title`: the title framing line. -/
def get_formatted_title : String :=
  TITLE_START ++ " " ++ TITLE ++ " " ++ TITLE_END

/-- Source `send_message` line 359-361: the outgoing text wrapped with the
title line above and the timestamp line below. -/
def wrap_message (now : Nat) (message : String) : String :=
  get_formatted_title ++ "\n" ++ message ++ "\n" ++ get_formatted_time now

/-- Model of `hashlib.sha256(s.encode()).hexdigest()`: an injective
fingerprint of the input string, represented by the identity embedding
(the digest is idealised as collision free; the code only ever compares
digests for equality). -/
def sha256_hexdigest (s : String) : String := s

/-- Maxsize of the `recent_messages` TTLCache (source line 104). -/
def RECENT_MAXSIZE : Nat := 100

/-- TTLCache membership at time `now`: some entry carries this fingerprint
and is unexpired (`now < inserted + ttl`). -/
def cacheContains (cache : List (String × Nat)) (ttl now : Nat) (h : String) : Bool :=
  cache.any (fun e => e.1 == h && now < e.2 + ttl)

/-- TTLCache insertion at time `now`: re-insertion refreshes the entry's
clock (the old entry for the same key is dropped), and entries beyond
`maxsize` are evicted oldest-inserted-first (the list is newest-first). -/
def cacheInsert (cache : List (String × Nat)) (h : String) (now maxsize : Nat) :
    List (String × Nat) :=
  ((h, now) :: cache.filter (fun e => e.1 != h)).take maxsize

/-- Queue item `(endpoint, payload, files)` as produced by the `send_*`
producers: the payload is the ordered field mapping, the optional files
argument is an opaque attachment. -/
structure SendTask where
  endpoint : String
  payload : List (String × String)
  files : Option String
deriving DecidableEq, Repr

/-- Ledger entry: `_process_queue` appends 2-tuples `(endpoint, payload)`
to `failed_messages`, while `_retry_failed_messages` re-appends 3-tuples
`(endpoint, payload, files)`; both shapes can therefore inhabit the
(untyped) Python list and are distinguished here. -/
inductive LedgerItem where
  | pair (endpoint : String) (payload : List (String × String))
  | triple (endpoint : String) (payload : List (String × String)) (files : Option String)
deriving DecidableEq, Repr

/-- Observable outcome of one `send_message` producer call. -/
inductive SendResult where
  | skippedEmpty
  | skippedDuplicate
  | queued
  | droppedFull
deriving DecidableEq, Repr

/-- State of a DeepWhisperer instance: the fields mirror the attributes set
in `__init__` that the dispatch engine reads and writes. -/
structure DWState where
  chat_id : String
  queue_size : Nat
  deduplication_ttl : Nat
  recent_messages : List (String × Nat)
  message_queue : List SendTask
  failed_messages : List LedgerItem
deriving DecidableEq, Repr

/-- Model of Python `str.strip()`: whitespace removed from both ends
(written over the character list so that it evaluates by kernel
reduction). -/
def py_strip (s : String) : String :=
  String.mk (((s.data.dropWhile Char.isWhitespace).reverse.dropWhile Char.isWhitespace).reverse)

/-- Source line 372: the message's fingerprint stored in the TTL cache
(`self.recent_messages[message_hash] = True`). -/
def record_fingerprint (s : DWState) (now : Nat) (message : String) : DWState :=
  { s with recent_messages := cacheInsert s.recent_messages (sha256_hexdigest (wrap_message now message)) now RECENT_MAXSIZE }

/-- The task `send_message` enqueues on line 382. -/
def queued_task (s : DWState) (now : Nat) (message parse_mode : String) : SendTask :=
  SendTask.mk "sendMessage" [("chat_id", s.chat_id), ("parse_mode", parse_mode), ("text", wrap_message now message)] none

/-- Source `send_message` (lines 343-389) at wall-clock second `now`:
empty-message guard, title/timestamp wrapping, SHA-256 fingerprint,
duplicate suppression unless `allow_duplicates`, unconditional fingerprint
record on the non-suppressed path, then a non-blocking enqueue whose
`queue.Full` is caught and logged (the call always returns). -/
def send_message (s : DWState) (now : Nat) (message : String)
    (parse_mode : String) (allow_duplicates : Bool) : DWState × SendResult :=
  if py_strip message = "" then
    (s, SendResult.skippedEmpty)
  else if !allow_duplicates && cacheContains s.recent_messages s.deduplication_ttl now
      (sha256_hexdigest (wrap_message now message)) then
    (s, SendResult.skippedDuplicate)
  else if 0 < s.queue_size && s.queue_size ≤ s.message_queue.length then
    -- line 372 records the fingerprint before the enqueue attempt, so the
    -- cache is updated on the queue-full path too
    (record_fingerprint s now message, SendResult.droppedFull)
  else
    ({ record_fingerprint s now message with
        message_queue := s.message_queue ++ [queued_task s now message parse_mode] },
     SendResult.queued)

/-- Collection phase of one `_process_queue` cycle (lines 176-195): up to
`k` queue items are retrieved before the batch window elapses (`k` is the
number of successful `get` calls the timing allowed). A retrieved item with
endpoint "STOP" makes the worker return at once (remaining items stay
queued, nothing collected so far is dispatched). Text items contribute
their payload text to `collected_messages` in arrival order (every
"sendMessage" task carries a "text" field); all other items go to the
batch in arrival order. Returns (collected texts, non-text batch,
remaining queue, stop sentinel seen). -/
def collectPhase : Nat → List SendTask → List String × List SendTask × List SendTask × Bool
  | 0, q => ([], [], q, false)
  | _ + 1, [] => ([], [], [], false)
  | k + 1, t :: q =>
    if t.endpoint == "STOP" then
      ([], [], q, true)
    else
      let r := collectPhase k q
      if t.endpoint == "sendMessage" then
        ((t.payload.lookup "text").getD "" :: r.1, r.2.1, r.2.2.1, r.2.2.2)
      else
        (r.1, t :: r.2.1, r.2.2.1, r.2.2.2)

/-- Source line 198: all collected plain-text messages combined with a
blank line (two newlines) between consecutive texts. -/
def combine_messages (msgs : List String) : String :=
  String.intercalate "\n\n" msgs

/-- Source lines 198-205: the single combined text task appended to the
batch when any plain-text messages were collected. Its payload has no
parse_mode field. -/
def mergedTask (chat_id : String) (msgs : List String) : SendTask :=
  SendTask.mk "sendMessage" [("chat_id", chat_id), ("text", combine_messages msgs)] none

/-- Body of the `for endpoint, payload, files in self.failed_messages`
loop of `_retry_failed_messages` (lines 241-248). Unpacking a 2-tuple
ledger entry into three names raises ValueError at the loop header, before
any request is made for that entry; the flag records that the loop raised.
Returns (raised, remaining_failed as rebuilt so far, requests actually
handed to `_send_request` in order). `sendOk` is the transport oracle:
whether `_send_request` returns a response for that request. -/
def retryLoop (sendOk : SendTask → Bool) : List LedgerItem → Bool × List LedgerItem × List SendTask
  | [] => (false, [], [])
  | LedgerItem.pair _ _ :: _ => (true, [], [])
  | LedgerItem.triple e p f :: rest =>
    let t := SendTask.mk e p f
    let r := retryLoop sendOk rest
    (r.1, (if sendOk t then r.2.1 else LedgerItem.triple e p f :: r.2.1), t :: r.2.2)

/-- Source `_retry_failed_messages` (lines 231-250): an empty ledger
returns immediately; otherwise the ledger is traversed, and
`failed_messages` is reassigned to the rebuilt list only if the traversal
completed — if the traversal raised, the assignment on line 250 never runs
and the ledger keeps its previous contents (the exception propagates to
the cycle-level handler). Returns (ledger after the call, requests handed
to the sender, whether the traversal raised). -/
def retry_failed_messages (sendOk : SendTask → Bool) (failed : List LedgerItem) :
    List LedgerItem × List SendTask × Bool :=
  match failed with
  | [] => ([], [], false)
  | _ =>
    let r := retryLoop sendOk failed
    ((if r.1 then failed else r.2.1), r.2.2, r.1)

/-- Result of one dispatch cycle: the new state, the requests submitted in
the dispatch phase, the requests submitted in the ledger-retry phase,
whether the ledger retry raised (swallowed by the cycle-level handler on
line 228), and whether the STOP sentinel ended the worker. -/
structure CycleOut where
  state : DWState
  dispatched : List SendTask
  retried : List SendTask
  retryRaised : Bool
  stopped : Bool
deriving DecidableEq, Repr

/-- One iteration of the `while not self.stop_event.is_set()` loop of
`_process_queue` (lines 170-229): collect for the batch window (`k` queue
items retrieved), merge collected texts into one combined task, dispatch
the batch concurrently (each failed submission appends the 2-tuple
`(endpoint, payload)` to `failed_messages`), then run the ledger retry;
an exception raised there is caught by the cycle-level handler, so the
cycle completes either way. -/
def process_queue_cycle (sendOk : SendTask → Bool) (k : Nat) (s : DWState) : CycleOut :=
  let c := collectPhase k s.message_queue
  if c.2.2.2 then
    CycleOut.mk { s with message_queue := c.2.2.1 } [] [] false true
  else
    let batch := c.2.1 ++ (if c.1.isEmpty then [] else [mergedTask s.chat_id c.1])
    let newFailed := s.failed_messages
      ++ (batch.filter (fun t => !sendOk t)).map (fun t => LedgerItem.pair t.endpoint t.payload)
    let r := retry_failed_messages sendOk newFailed
    CycleOut.mk { s with message_queue := c.2.2.1, failed_messages := r.1 } batch r.2.1 r.2.2 false

/-- The `_process_queue` worker loop: before each cycle the stop event is
checked (cycle index `i` feeds the schedule oracles); a set stop event
makes the worker return with the state as it stands. `stopFlag i` is
whether `stop_event.is_set()` observed at the start of cycle `i`, and
`sched i` is how many queue items cycle `i`'s batch window allows to be
retrieved. Returns the final state and whether the worker returned within
the given fuel. -/
def process_queue_loop (sendOk : SendTask → Bool) (stopFlag : Nat → Bool) (sched : Nat → Nat) :
    Nat → Nat → DWState → DWState × Bool
  | 0, _, s => (s, false)
  | fuel + 1, i, s =>
    if stopFlag i then
      (s, true)
    else
      let out := process_queue_cycle sendOk (sched i) s
      if out.stopped then
        (out.state, true)
      else
        process_queue_loop sendOk stopFlag sched fuel (i + 1) out.state

/-- Outcome of one attempt inside `_send_request`: the POST succeeded, it
raised `httpx.HTTPStatusError` (a 4xx/5xx response, via
`raise_for_status`), or it raised any other exception (transport error,
timeout, ...). -/
inductive AttemptOutcome where
  | success
  | statusError
  | otherError
deriving DecidableEq, Repr

/-- Observable result of one `_send_request` call: whether a response was
returned (vs `None`), how many attempts were made, and the sleep durations
in order. -/
structure SendRun where
  ok : Bool
  attemptsMade : Nat
  sleeps : List ℚ
deriving DecidableEq, Repr

/-- The `for attempt in range(self.max_retries)` loop of `_send_request`
(lines 262-288), from a given attempt index with the remaining number of
iterations as fuel: a successful POST returns the response; an
HTTPStatusError sleeps `retry_delay * 2 ^ attempt * jitter` and continues
unless this was the last attempt, in which case `None` is returned; any
other exception returns `None` immediately, without retrying. `outcome n`
is the transport oracle for attempt `n` (0-indexed) and `jitter n` the
value `random.uniform(0.5, 1.5)` drew before the sleep that follows
attempt `n`. -/
def sendAttempts (retry_delay : ℚ) (outcome : Nat → AttemptOutcome) (jitter : Nat → ℚ)
    (max_retries : Nat) : Nat → Nat → SendRun
  | _, 0 => SendRun.mk false 0 []
  | attempt, fuel + 1 =>
    match outcome attempt with
    | AttemptOutcome.success => SendRun.mk true 1 []
    | AttemptOutcome.otherError => SendRun.mk false 1 []
    | AttemptOutcome.statusError =>
      if attempt < max_retries - 1 then
        let r := sendAttempts retry_delay outcome jitter max_retries (attempt + 1) fuel
        SendRun.mk r.ok (r.attemptsMade + 1) (retry_delay * 2 ^ attempt * jitter attempt :: r.sleeps)
      else
        SendRun.mk false 1 []

/-- Source `_send_request` (lines 252-288): the attempt loop started at
attempt 0 with the full budget (an exhausted `range` falls through to an
implicit `return None`). -/
def send_request (max_retries : Nat) (retry_delay : ℚ)
    (outcome : Nat → AttemptOutcome) (jitter : Nat → ℚ) : SendRun :=
  sendAttempts retry_delay outcome jitter max_retries 0 max_retries

/-- The sleep durations of a run whose first `m - 1` attempts all raise
HTTPStatusError: the sleep after 0-indexed attempt `a` (before 1-indexed
attempt `a + 2`) is `retry_delay * 2 ^ a * jitter a`. -/
def backoffSleeps (retry_delay : ℚ) (jitter : Nat → ℚ) (m : Nat) : List ℚ :=
  (List.range' 0 (m - 1)).map (fun a => retry_delay * 2 ^ a * jitter a)

/-- Convenience constructor for states in concrete runs: chat id "chat1",
empty dedup cache. -/
def mkState (cap ttl : Nat) (q : List SendTask) (fl : List LedgerItem) : DWState :=
  DWState.mk "chat1" cap ttl [] q fl

/-- A plain-text task as `send_message` enqueues it (payload text already
fully formatted before enqueue). -/
def textTask (text : String) : SendTask :=
  SendTask.mk "sendMessage" [("chat_id", "chat1"), ("parse_mode", "Markdown"), ("text", text)] none

/-- Initial state with default queue size 100 and default TTL 300, empty
queue and ledger. -/
def emptyState : DWState := mkState 100 300 [] []

/-- Five plain-text tasks sitting in the queue, as in the shutdown
scenario. -/
def fiveTasks : List SendTask :=
  [textTask "m1", textTask "m2", textTask "m3", textTask "m4", textTask "m5"]

/-- Helper: a fingerprint freshly inserted at `now1` is still reported
present at any `now2` inside its TTL window (it sits at the head of the
cache, which capacity trimming never removes). -/
theorem cacheContains_insert_same (cache : List (String × Nat)) (ttl now1 now2 : Nat)
    (h : String) (httl : now2 < now1 + ttl) :
    cacheContains (cacheInsert cache h now1 RECENT_MAXSIZE) ttl now2 h = true := by
  have h100 : RECENT_MAXSIZE = 99 + 1 := rfl
  unfold cacheInsert cacheContains
  rw [h100, List.take_succ_cons, List.any_cons]
  simp [httl]

/-- Helper: a sender run whose realized attempts all raise HTTPStatusError
until the last budgeted attempt makes exactly `fuel` attempts from index
`attempt`, sleeps the exponential-backoff durations after every attempt
but the last, and succeeds iff the last attempt's POST succeeds. -/
theorem sendAttempts_status_run (d : ℚ) (outcome : Nat → AttemptOutcome) (jitter : Nat → ℚ)
    (m : Nat) :
    ∀ fuel attempt, attempt + fuel = m → 0 < fuel →
    (∀ n, attempt ≤ n → n + 1 < m → outcome n = AttemptOutcome.statusError) →
    sendAttempts d outcome jitter m attempt fuel
      = SendRun.mk (outcome (m - 1) == AttemptOutcome.success) fuel
          ((List.range' attempt (fuel - 1)).map (fun a => d * 2 ^ a * jitter a)) := by
  intro fuel
  induction fuel with
  | zero => intro attempt _ hpos; omega
  | succ f ih =>
    intro attempt hsum _ hstat
    cases f with
    | zero =>
      have hlast : attempt = m - 1 := by omega
      unfold sendAttempts
      rcases houtc : outcome attempt with _ | _ | _ <;>
        simp [houtc, hlast ▸ houtc, show ¬ attempt < m - 1 by omega]
    | succ f2 =>
      have hcur : outcome attempt = AttemptOutcome.statusError :=
        hstat attempt le_rfl (by omega)
      have hrec := ih (attempt + 1) (by omega) (by omega)
        (fun n hn hn2 => hstat n (by omega) hn2)
      unfold sendAttempts
      rw [hcur]
      simp only [show attempt < m - 1 by omega, if_pos, hrec]
      have hrange : List.range' attempt (f2 + 2 - 1)
          = attempt :: List.range' (attempt + 1) (f2 + 1 - 1) := by
        have : (f2 + 2 - 1) = (f2 + 1 - 1) + 1 := by omega
        rw [this, List.range'_succ]
      rw [hrange]
      simp

/-- C6: realized retry/backoff behaviour of `_send_request`. A run that
fails its first `max_retries - 1` attempts and goes on to the last attempt
(in the code, an attempt the run continues past fails precisely with an
HTTPStatusError — any other failure ends the run at once, see the error
policy) reports success iff the last attempt succeeds; the sleep before
1-indexed attempt `n ≥ 2` is `retry_delay * 2 ^ (n - 2) * jitter`, and
with the jitter at the mean of Uniform[0.5, 1.5] (namely 1) the observed
backoff delays are non-decreasing. -/
theorem send_request_backoff (m : Nat) (d : ℚ) (outcome : Nat → AttemptOutcome)
    (jitter : Nat → ℚ) (hm : 1 ≤ m) (hd : 0 ≤ d)
    (hfail : ∀ n, n + 1 < m → outcome n = AttemptOutcome.statusError) :
    (outcome (m - 1) = AttemptOutcome.success →
      send_request m d outcome jitter = SendRun.mk true m (backoffSleeps d jitter m)) ∧
    (outcome (m - 1) = AttemptOutcome.statusError →
      send_request m d outcome jitter = SendRun.mk false m (backoffSleeps d jitter m)) ∧
    ((∀ n, jitter n = 1) → (backoffSleeps d jitter m).Pairwise (· ≤ ·)) := by
  have hrun := sendAttempts_status_run d outcome jitter m m 0 (by omega) (by omega)
    (fun n _ hn2 => hfail n hn2)
  refine ⟨fun hs => ?_, fun hs => ?_, fun hj => ?_⟩
  · rw [send_request, hrun, hs]
    rfl
  · rw [send_request, hrun, hs]
    rfl
  · unfold backoffSleeps
    refine List.Pairwise.map _ (fun a b hab => ?_)
      (List.pairwise_lt_range' 0 (m - 1) 1 (by omega))
    rw [hj a, hj b, mul_one, mul_one]
    exact mul_le_mul_of_nonneg_left (pow_le_pow_right₀ (by norm_num) hab.le) hd

/-- C5 (amended policy): `_send_request` converts every failure mode to a
`None` result — an HTTPStatusError (4xx/5xx response) is retried with
backoff until the attempt budget is exhausted, while any other exception
(transport error, timeout, ...) ends the run immediately as a failure
without consuming further attempts. -/
theorem send_request_error_policy (m : Nat) (d : ℚ) (outcome : Nat → AttemptOutcome)
    (jitter : Nat → ℚ) (hm : 1 ≤ m) :
    (outcome 0 = AttemptOutcome.otherError →
      send_request m d outcome jitter = SendRun.mk false 1 []) ∧
    ((∀ n, n < m → outcome n = AttemptOutcome.statusError) →
      send_request m d outcome jitter = SendRun.mk false m (backoffSleeps d jitter m)) := by
  constructor
  · intro h0
    obtain ⟨f, rfl⟩ : ∃ f, m = f + 1 := ⟨m - 1, by omega⟩
    rw [send_request]
    unfold sendAttempts
    rw [h0]
  · intro hall
    have hrun := sendAttempts_status_run d outcome jitter m m 0 (by omega) (by omega)
      (fun n _ hn2 => hall n (by omega))
    rw [send_request, hrun, hall (m - 1) (by omega)]
    rfl

/-- C9: running the Failure Ledger retry step on an empty ledger is a
no-op — the early return on lines 233-234 fires, so the ledger stays
empty, no request is handed to the sender, nothing is raised, and
replaying the step any number of times changes nothing. -/
theorem retry_empty_ledger_noop (sendOk : SendTask → Bool) :
    retry_failed_messages sendOk [] = ([], [], false) ∧
    ∀ n : Nat, Nat.iterate (fun l => (retry_failed_messages sendOk l).1) n [] = [] := by
  refine ⟨rfl, ?_⟩
  intro n
  induction n with
  | zero => rfl
  | succ n ih =>
    rw [Function.iterate_succ_apply]
    exact ih

/-- C1: evaluation of the code at the failing input. A dispatch cycle
whose single text task fails leaves the 2-tuple `("sendMessage", payload)`
in the ledger (as `_process_queue` line 220 appends it); the ledger retry
then raises ValueError at the `for endpoint, payload, files in ...` header
when unpacking that 2-tuple, so no request is resubmitted and the ledger
is never reassigned — even a following cycle whose sender would now
succeed resubmits nothing and removes nothing. -/
theorem retry_ledger_unpack_bug :
    (process_queue_cycle (fun _ => false) 1 (mkState 100 300 [textTask "boom"] [])).state.failed_messages
      = [LedgerItem.pair "sendMessage" [("chat_id", "chat1"), ("text", "boom")]] ∧
    (process_queue_cycle (fun _ => false) 1 (mkState 100 300 [textTask "boom"] [])).retryRaised = true ∧
    (process_queue_cycle (fun _ => false) 1 (mkState 100 300 [textTask "boom"] [])).retried = [] ∧
    (process_queue_cycle (fun _ => true) 0
        (process_queue_cycle (fun _ => false) 1 (mkState 100 300 [textTask "boom"] [])).state).retried = [] ∧
    (process_queue_cycle (fun _ => true) 0
        (process_queue_cycle (fun _ => false) 1 (mkState 100 300 [textTask "boom"] [])).state).retryRaised = true ∧
    (process_queue_cycle (fun _ => true) 0
        (process_queue_cycle (fun _ => false) 1 (mkState 100 300 [textTask "boom"] [])).state).state.failed_messages
      = [LedgerItem.pair "sendMessage" [("chat_id", "chat1"), ("text", "boom")]] := by
  exact ⟨rfl, rfl, rfl, rfl, rfl, rfl⟩

/-- C8: evaluation of the code at the failing input. Five text tasks are
queued before the stop signal; cycle 0's batch window only lets two of
them be dequeued, and the loop then observes the stop event at the next
cycle boundary and returns at once — three of the five tasks are still in
the queue, never submitted and never ledgered, when the worker
terminates. -/
theorem stop_signal_queue_undrained :
    (process_queue_loop (fun _ => true) (fun i => i != 0) (fun _ => 2) 5 0
        (mkState 100 300 fiveTasks [])).2 = true ∧
    (process_queue_loop (fun _ => true) (fun i => i != 0) (fun _ => 2) 5 0
        (mkState 100 300 fiveTasks [])).1.message_queue
      = [textTask "m3", textTask "m4", textTask "m5"] ∧
    (process_queue_loop (fun _ => true) (fun i => i != 0) (fun _ => 2) 5 0
        (mkState 100 300 fiveTasks [])).1.failed_messages = [] := by
  exact ⟨rfl, rfl, rfl⟩

/-- C2 counterexample: a message sent with allow_duplicates = true does
change the deduplication cache — line 372 records its fingerprint
unconditionally on the non-suppressed path, so the cache is not left
unchanged by that send. -/
theorem allow_duplicates_cache_changed_cex :
    (send_message emptyState 0 "hello" "Markdown" true).1.recent_messages
      ≠ emptyState.recent_messages ∧
    cacheContains (send_message emptyState 0 "hello" "Markdown" true).1.recent_messages
      300 0 (sha256_hexdigest (wrap_message 0 "hello")) = true := by
  exact ⟨by decide, rfl⟩

/-- C3 counterexample: the same message sent at seconds 0 and 10 — well
inside the default 300-second TTL, with duplicates disallowed — is NOT
suppressed on the second send: the timestamp framing line differs between
the two seconds, so the fingerprints differ and two tasks reach the
queue. -/
theorem dedup_across_seconds_not_suppressed_cex :
    (send_message (send_message emptyState 0 "dup" "Markdown" false).1 10 "dup" "Markdown" false).2
      = SendResult.queued ∧
    (send_message (send_message emptyState 0 "dup" "Markdown" false).1 10 "dup" "Markdown" false).1.message_queue.length
      = 2 ∧
    (10 : Nat) < 0 + 300 := by
  exact ⟨rfl, rfl, by decide⟩

/-- C4 counterexample: a cycle that collected the texts "a", "b", "c"
produces one combined submission whose payload text joins them with a
blank line (`"\n\n"`, source line 198), not with a single newline. -/
theorem merge_separator_cex :
    (process_queue_cycle (fun _ => true) 3
        (mkState 100 300 [textTask "a", textTask "b", textTask "c"] [])).dispatched
      = [SendTask.mk "sendMessage" [("chat_id", "chat1"), ("text", "a\n\nb\n\nc")] none] ∧
    combine_messages ["a", "b", "c"] = "a\n\nb\n\nc" ∧
    "a\n\nb\n\nc" ≠ "a\nb\nc" := by
  exact ⟨rfl, rfl, by decide⟩

/-- C5 counterexample: with a budget of 3 attempts, a transport error
(any exception other than HTTPStatusError) on the very first attempt ends
the run immediately as a failure — lines 286-288 return None without
sleeping or retrying — even though the budget is not exhausted and the
next attempt would have succeeded. -/
theorem transport_error_no_retry_cex :
    send_request 3 1
        (fun n => if n = 0 then AttemptOutcome.otherError else AttemptOutcome.success)
        (fun _ => 1)
      = SendRun.mk false 1 [] ∧
    (if 0 = 0 then AttemptOutcome.otherError else AttemptOutcome.success)
      = AttemptOutcome.otherError ∧
    (1 : Nat) < 3 := by
  exact ⟨rfl, rfl, by decide⟩

/-- C6 witness: budget 3, base delay 2, first two attempts 4xx/5xx, third
succeeds, jitter pinned at 1 — the run reports success after 3 attempts
with sleeps 2 and 4. -/
theorem send_request_backoff_witness :
    (1 : Nat) ≤ 3 ∧ (0 : ℚ) ≤ 2 ∧
    send_request 3 2
        (fun n => if n < 2 then AttemptOutcome.statusError else AttemptOutcome.success)
        (fun _ => 1)
      = SendRun.mk true 3 [2, 4] :=
  ⟨by norm_num, by norm_num,
    ((send_request_backoff 3 2
        (fun n => if n < 2 then AttemptOutcome.statusError else AttemptOutcome.success)
        (fun _ => 1) (by norm_num) (by norm_num)
        (fun n hn => by simp [show n < 2 by omega])).1 rfl).trans
      (by norm_num [backoffSleeps, List.range'])⟩

/-- C5 witness: budget 4, every attempt a transport error — the run fails
after a single attempt with no sleeps. -/
theorem send_request_error_policy_witness :
    (1 : Nat) ≤ 4 ∧
    send_request 4 3 (fun _ => AttemptOutcome.otherError) (fun _ => 1)
      = SendRun.mk false 1 [] :=
  ⟨by norm_num,
    (send_request_error_policy 4 3 (fun _ => AttemptOutcome.otherError)
      (fun _ => 1) (by norm_num)).1 rfl⟩

/-- C2: a non-empty text message sent with allow_duplicates = true is never
suppressed as a duplicate — the cache check is bypassed and the send is
queued (or dropped only for queue capacity) — but, contrary to the claim,
the deduplication cache IS updated: the message's fingerprint is recorded
by line 372 on this path too. -/
theorem allow_duplicates_bypasses_check_but_records (s : DWState) (now : Nat)
    (msg pm : String) (hmsg : ¬ py_strip msg = "") :
    ((send_message s now msg pm true).2 = SendResult.queued ∨
      (send_message s now msg pm true).2 = SendResult.droppedFull) ∧
    (send_message s now msg pm true).1.recent_messages
      = cacheInsert s.recent_messages (sha256_hexdigest (wrap_message now msg)) now
          RECENT_MAXSIZE := by
  unfold send_message
  rw [if_neg hmsg]
  simp only [Bool.not_true, Bool.false_and, Bool.false_eq_true, if_false]
  split
  · exact ⟨Or.inr rfl, rfl⟩
  · exact ⟨Or.inl rfl, rfl⟩

/-- C2 witness: the non-empty message "hello" sent with duplicates allowed
from the initial state. -/
theorem allow_duplicates_bypasses_check_but_records_witness :
    ¬ py_strip "hello" = "" ∧
    (((send_message emptyState 0 "hello" "Markdown" true).2 = SendResult.queued ∨
      (send_message emptyState 0 "hello" "Markdown" true).2 = SendResult.droppedFull) ∧
    (send_message emptyState 0 "hello" "Markdown" true).1.recent_messages
      = cacheInsert emptyState.recent_messages
          (sha256_hexdigest (wrap_message 0 "hello")) 0 RECENT_MAXSIZE) :=
  ⟨by decide, allow_duplicates_bypasses_check_but_records emptyState 0 "hello" "Markdown" (by decide)⟩

/-- Helper: inversion of a send that reported `queued` — it recorded the
fingerprint and appended exactly one fully-formatted task to the queue. -/
theorem send_message_queued_eq (s : DWState) (now : Nat) (msg pm : String) (ad : Bool)
    (hq : (send_message s now msg pm ad).2 = SendResult.queued) :
    send_message s now msg pm ad
      = ({ record_fingerprint s now msg with
            message_queue := s.message_queue ++ [queued_task s now msg pm] },
         SendResult.queued) := by
  unfold send_message at hq ⊢
  split_ifs at hq ⊢ <;> first
    | rfl
    | exact absurd hq (by simp)

/-- Helper: the timestamp framing determines the whole wrapped text. -/
theorem wrap_message_congr (now1 now2 : Nat) (msg : String)
    (hframe : get_formatted_time now2 = get_formatted_time now1) :
    wrap_message now2 msg = wrap_message now1 msg := by
  unfold wrap_message
  rw [hframe]

/-- C3 (amended): a non-empty message queued at second `now1` and re-sent
with duplicates disallowed at second `now2` inside the TTL window is
suppressed provided the two sends carry the same timestamp framing (the
fingerprint is a digest of the fully-formatted text, so sends whose
formatted timestamps differ produce different fingerprints and are not
suppressed); exactly one task for the message reaches the queue. -/
theorem dedup_same_frame_suppressed (s : DWState) (now1 now2 : Nat) (msg pm1 pm2 : String)
    (hmsg : ¬ py_strip msg = "")
    (hq : (send_message s now1 msg pm1 false).2 = SendResult.queued)
    (httl : now2 < now1 + s.deduplication_ttl)
    (hframe : get_formatted_time now2 = get_formatted_time now1) :
    send_message (send_message s now1 msg pm1 false).1 now2 msg pm2 false
      = ((send_message s now1 msg pm1 false).1, SendResult.skippedDuplicate) ∧
    (send_message s now1 msg pm1 false).1.message_queue
      = s.message_queue ++ [queued_task s now1 msg pm1] := by
  rw [send_message_queued_eq s now1 msg pm1 false hq]
  have hcontains : cacheContains
      (record_fingerprint s now1 msg).recent_messages s.deduplication_ttl now2
      (sha256_hexdigest (wrap_message now2 msg)) = true := by
    rw [wrap_message_congr now1 now2 msg hframe]
    exact cacheContains_insert_same s.recent_messages s.deduplication_ttl now1 now2 _ httl
  constructor
  · unfold send_message
    rw [if_neg hmsg]
    simp only [record_fingerprint] at hcontains ⊢
    simp [hcontains]
  · rfl

/-- C3 witness: "hi" sent twice from the initial state at the same second
7 (same timestamp framing, inside the 300-second TTL): the second send is
suppressed and the queue holds the single formatted task. -/
theorem dedup_same_frame_suppressed_witness :
    (¬ py_strip "hi" = "") ∧
    (send_message emptyState 7 "hi" "Markdown" false).2 = SendResult.queued ∧
    (7 : Nat) < 7 + emptyState.deduplication_ttl ∧
    (send_message (send_message emptyState 7 "hi" "Markdown" false).1 7 "hi" "Markdown" false
      = ((send_message emptyState 7 "hi" "Markdown" false).1, SendResult.skippedDuplicate) ∧
    (send_message emptyState 7 "hi" "Markdown" false).1.message_queue
      = emptyState.message_queue ++ [queued_task emptyState 7 "hi" "Markdown"]) :=
  ⟨by decide, rfl, by decide,
    dedup_same_frame_suppressed emptyState 7 7 "hi" "Markdown" "Markdown"
      (by decide) rfl (by decide) rfl⟩

/-- C7: a task sent while the queue is at capacity is rejected — nothing
is added to the queue, the call still returns a result to its caller (the
model is a total function: `queue.Full` is caught on line 385), and on the
normal path (non-empty, not suppressed) the result is exactly
`droppedFull`. -/
theorem queue_full_rejected (s : DWState) (now : Nat) (msg pm : String) (ad : Bool)
    (hfull : 0 < s.queue_size ∧ s.queue_size ≤ s.message_queue.length) :
    (send_message s now msg pm ad).1.message_queue = s.message_queue ∧
    (send_message s now msg pm ad).2 ≠ SendResult.queued ∧
    (¬ py_strip msg = "" →
      (!ad && cacheContains s.recent_messages s.deduplication_ttl now
        (sha256_hexdigest (wrap_message now msg))) = false →
      (send_message s now msg pm ad).2 = SendResult.droppedFull) := by
  have hfullb : (0 < s.queue_size && s.queue_size ≤ s.message_queue.length) = true := by
    simp [hfull.1, hfull.2]
  unfold send_message
  split_ifs with h1 h2 h3 <;>
    first
      | exact ⟨rfl, by simp, fun hm hs => absurd h1 hm⟩
      | exact ⟨rfl, by simp, fun hm hs => by rw [h2] at hs; exact absurd hs (by simp)⟩
      | exact ⟨rfl, by simp, fun _ _ => rfl⟩
      | exact absurd hfullb (by simp [h3])

/-- C7 witness: queue of capacity 1 already holding one task; a fresh
message is dropped with the queue unchanged. -/
theorem queue_full_rejected_witness :
    (0 < (mkState 1 300 [textTask "x"] []).queue_size ∧
      (mkState 1 300 [textTask "x"] []).queue_size
        ≤ (mkState 1 300 [textTask "x"] []).message_queue.length) ∧
    ((send_message (mkState 1 300 [textTask "x"] []) 0 "new" "Markdown" false).1.message_queue
      = (mkState 1 300 [textTask "x"] []).message_queue ∧
    (send_message (mkState 1 300 [textTask "x"] []) 0 "new" "Markdown" false).2
      ≠ SendResult.queued ∧
    (¬ py_strip "new" = "" →
      (!false && cacheContains (mkState 1 300 [textTask "x"] []).recent_messages
        (mkState 1 300 [textTask "x"] []).deduplication_ttl 0
        (sha256_hexdigest (wrap_message 0 "new"))) = false →
      (send_message (mkState 1 300 [textTask "x"] []) 0 "new" "Markdown" false).2
        = SendResult.droppedFull)) :=
  ⟨⟨by decide, by decide⟩,
    queue_full_rejected (mkState 1 300 [textTask "x"] []) 0 "new" "Markdown" false
      ⟨by decide, by decide⟩⟩

/-- Helper: draining a queue of plain-text tasks collects exactly their
texts, in arrival order, with an empty non-text batch and an emptied
queue. -/
theorem collectPhase_texts (msgs : List String) :
    ∀ k, msgs.length ≤ k →
    collectPhase k (msgs.map textTask) = (msgs, [], [], false) := by
  induction msgs with
  | nil =>
    intro k _
    cases k with
    | zero => rfl
    | succ k => rfl
  | cons m ms ih =>
    intro k hk
    cases k with
    | zero => simp at hk
    | succ k =>
      have hrec := ih k (by simpa using hk)
      simp only [List.map_cons, collectPhase, hrec]
      rfl

/-- C4 (amended): a dispatch cycle that collected at least one plain-text
task produces exactly one combined text submission, whose payload text is
the collected texts joined in arrival order with a blank line (two
newlines) between consecutive texts — not a single newline. -/
theorem cycle_merges_collected_texts (msgs : List String) (k cap ttl : Nat)
    (hne : msgs ≠ []) (hk : msgs.length ≤ k) :
    (process_queue_cycle (fun _ => true) k (mkState cap ttl (msgs.map textTask) [])).dispatched
      = [mergedTask "chat1" msgs] ∧
    mergedTask "chat1" msgs
      = SendTask.mk "sendMessage"
          [("chat_id", "chat1"), ("text", String.intercalate "\n\n" msgs)] none := by
  constructor
  · unfold process_queue_cycle
    have hcollect : collectPhase k (mkState cap ttl (msgs.map textTask) []).message_queue
        = (msgs, [], [], false) := collectPhase_texts msgs k hk
    rw [hcollect]
    simp [retry_failed_messages, hne, mkState]
  · rfl

/-- C4 witness: a cycle collecting the three texts "x", "y", "z" inside
one batch window. -/
theorem cycle_merges_collected_texts_witness :
    (["x", "y", "z"] : List String) ≠ [] ∧
    (["x", "y", "z"] : List String).length ≤ 3 ∧
    ((process_queue_cycle (fun _ => true) 3
        (mkState 100 300 (["x", "y", "z"].map textTask) [])).dispatched
      = [mergedTask "chat1" ["x", "y", "z"]] ∧
    mergedTask "chat1" ["x", "y", "z"]
      = SendTask.mk "sendMessage"
          [("chat_id", "chat1"), ("text", String.intercalate "\n\n" ["x", "y", "z"])] none) :=
  ⟨by decide, by decide,
    cycle_merges_collected_texts ["x", "y", "z"] 3 100 300 (by decide) (by decide)⟩

/-- C10: a non-empty, non-duplicate text message sent while the queue is
at capacity is dropped — the queue is unchanged — yet its fingerprint is
recorded by line 372 before the enqueue attempt, so a later send of the
same fully-framed text inside the TTL window is suppressed as a duplicate
even though no copy of the message was ever enqueued. -/
theorem queue_full_still_records_fingerprint (s : DWState) (now now2 : Nat)
    (msg pm pm2 : String)
    (hmsg : ¬ py_strip msg = "")
    (hfull : 0 < s.queue_size ∧ s.queue_size ≤ s.message_queue.length)
    (hfresh : cacheContains s.recent_messages s.deduplication_ttl now
      (sha256_hexdigest (wrap_message now msg)) = false)
    (httl : now2 < now + s.deduplication_ttl)
    (hframe : get_formatted_time now2 = get_formatted_time now) :
    send_message s now msg pm false = (record_fingerprint s now msg, SendResult.droppedFull) ∧
    (record_fingerprint s now msg).message_queue = s.message_queue ∧
    send_message (record_fingerprint s now msg) now2 msg pm2 false
      = (record_fingerprint s now msg, SendResult.skippedDuplicate) := by
  have hdrop : send_message s now msg pm false
      = (record_fingerprint s now msg, SendResult.droppedFull) := by
    unfold send_message
    rw [if_neg hmsg, if_neg (by simp [hfresh]), if_pos (by simp [hfull.1, hfull.2])]
  refine ⟨hdrop, rfl, ?_⟩
  have hcontains : cacheContains (record_fingerprint s now msg).recent_messages
      s.deduplication_ttl now2 (sha256_hexdigest (wrap_message now2 msg)) = true := by
    rw [wrap_message_congr now now2 msg hframe]
    exact cacheContains_insert_same s.recent_messages s.deduplication_ttl now now2 _ httl
  unfold send_message
  rw [if_neg hmsg]
  simp only [record_fingerprint] at hcontains ⊢
  simp [hcontains]

/-- C10 witness: capacity-1 queue already holding a task; "hello2" sent at
second 0 is dropped but fingerprinted, and the identical send at second 0
is then suppressed. -/
theorem queue_full_still_records_fingerprint_witness :
    (¬ py_strip "hello2" = "") ∧
    (0 < (mkState 1 300 [textTask "x"] []).queue_size ∧
      (mkState 1 300 [textTask "x"] []).queue_size
        ≤ (mkState 1 300 [textTask "x"] []).message_queue.length) ∧
    cacheContains (mkState 1 300 [textTask "x"] []).recent_messages
      (mkState 1 300 [textTask "x"] []).deduplication_ttl 0
      (sha256_hexdigest (wrap_message 0 "hello2")) = false ∧
    (0 : Nat) < 0 + (mkState 1 300 [textTask "x"] []).deduplication_ttl ∧
    (send_message (mkState 1 300 [textTask "x"] []) 0 "hello2" "Markdown" false
      = (record_fingerprint (mkState 1 300 [textTask "x"] []) 0 "hello2",
         SendResult.droppedFull) ∧
    (record_fingerprint (mkState 1 300 [textTask "x"] []) 0 "hello2").message_queue
      = (mkState 1 300 [textTask "x"] []).message_queue ∧
    send_message (record_fingerprint (mkState 1 300 [textTask "x"] []) 0 "hello2")
        0 "hello2" "Markdown" false
      = (record_fingerprint (mkState 1 300 [textTask "x"] []) 0 "hello2",
         SendResult.skippedDuplicate)) :=
  ⟨by decide, ⟨by decide, by decide⟩, by decide, by decide,
    queue_full_still_records_fingerprint (mkState 1 300 [textTask "x"] []) 0 0
      "hello2" "Markdown" "Markdown" (by decide) ⟨by decide, by decide⟩
      (by decide) (by decide) rfl⟩

end DeepWhisperer
